import Mathlib

/-!
Verification development for the Brown-Ham precipitate dislocation demo.

The development shallowly embeds the C sources of the repository: the model
evaluator computeBrownHamModelOutput from src/main.c, the command-line
validation, input loading and JSON reporting from the utilities translation
unit, and the driver loop of main. C doubles are modelled as real numbers;
the IEEE not-a-number outcome of a square root applied to a negative
radicand is modelled by an Option-valued total variant of the evaluator.
External collaborators whose sources are not part of the repository snapshot
(the argument tokenizer parseArgs, the double parser parseDoubleChecked, the
CSV reader and writer, the clock, the UxHw native sampling library and the
statistics helper calculateMeanAndVarianceOfDoubleSamples) enter either as
explicit parameters of the embedding or as definitions modelled from the
specification; each such definition says so in its documentation.
-/

namespace BrownHam

/-- The model evaluator, translated from computeBrownHamModelOutput in
src/main.c line 57: the cutting stress in megapascals computed from the six
scalar inputs gamma, phi, Rs, G, b and M. -/
noncomputable def computeBrownHamModelOutput (gamma phi Rs G b M : ℝ) : ℝ :=
  ((M * gamma) / (2 * b)) *
    (Real.sqrt ((8 * gamma * phi * Rs) / (Real.pi * G * b ^ 2)) - phi) / 1000000

/-- The cutting-stress formula exactly as the specification writes it in
section 4.1: sigma_c = (M*gamma / (2*b)) * ( sqrt( (8*gamma*phi*Rs) /
(pi*G*b^2) ) - phi ) / 1000000. This definition follows the words of the
specification and is compared against the source-derived evaluator. -/
noncomputable def brownHamSpecSigmaC (gamma phi Rs G b M : ℝ) : ℝ :=
  (M * gamma / (2 * b)) *
    (Real.sqrt ((8 * gamma * phi * Rs) / (Real.pi * G * b ^ 2)) - phi) / 1000000

/-- The radicand of the square root inside the evaluator, as it appears in
src/main.c line 57. -/
noncomputable def radicand (gamma phi Rs G b : ℝ) : ℝ :=
  (8 * gamma * phi * Rs) / (Real.pi * G * b ^ 2)

/-- Total Option-valued embedding of the same source expression. A none
result models the IEEE not-a-number and infinity outcomes of the C code:
division by a zero Burgers vector, a vanishing denominator inside the
radicand, or a square root of a negative radicand. The guards mirror, in
evaluation order, exactly the partial operations of src/main.c line 57 and
nothing else; on the guarded-off domain the value agrees with
computeBrownHamModelOutput. -/
noncomputable def computeBrownHamModelOutputChecked
    (gamma phi Rs G b M : ℝ) : Option ℝ :=
  if b = 0 then none
  else if Real.pi * G * b ^ 2 = 0 then none
  else if radicand gamma phi Rs G b < 0 then none
  else some (computeBrownHamModelOutput gamma phi Rs G b M)

/-! ## Data model of the command-line configuration -/

/-- The fields of CommonCommandLineArguments that src/main.c and the
utilities translation unit read. The struct itself lives in the common
submodule; the field set is taken from its uses in the sources. -/
structure CommonCommandLineArguments where
  isInputFromFileEnabled : Bool
  isMonteCarloMode : Bool
  numberOfMonteCarloIterations : ℕ
  isTimingEnabled : Bool
  isVerbose : Bool
  isBenchmarkingMode : Bool
  isOutputJSONMode : Bool
  isWriteToFileEnabled : Bool
  isHelpEnabled : Bool
  isOutputSelected : Bool
  inputFilePath : String
  outputFilePath : String

/-- CommandLineArguments from src/utilities.h: the common flags together
with the six parameter values. -/
structure CommandLineArguments where
  common : CommonCommandLineArguments
  gamma : ℝ
  phi : ℝ
  Rs : ℝ
  G : ℝ
  b : ℝ
  M : ℝ

/-- InputDistributionIndex from src/utilities.h: the index order of the six
parameters inside the inputDistributions array. -/
inductive InputDistributionIndex where
  | b
  | G
  | gamma
  | M
  | phi
  | Rs
deriving DecidableEq

/-- One concrete value per parameter, the Sample Set consumed by the model
evaluator on one iteration. -/
structure ModelInputs where
  gamma : ℝ
  phi : ℝ
  Rs : ℝ
  G : ℝ
  b : ℝ
  M : ℝ

/-- Demo constants from src/utilities.h. -/
noncomputable def kDemoSpecificConstantGammaUniformMin : ℝ := 0.15

/-- Demo constant from src/utilities.h. -/
noncomputable def kDemoSpecificConstantGammaUniformMax : ℝ := 0.25

/-- Demo constant from src/utilities.h. -/
noncomputable def kDemoSpecificConstantPhiUniformMin : ℝ := 0.3

/-- Demo constant from src/utilities.h. -/
noncomputable def kDemoSpecificConstantPhiUniformMax : ℝ := 0.45

/-- Demo constant from src/utilities.h. -/
noncomputable def kDemoSpecificConstantRsMixtureFirstGaussianMean : ℝ := 1e-8

/-- Demo constant from src/utilities.h. -/
noncomputable def kDemoSpecificConstantRsMixtureFirstGaussianStandardDeviation : ℝ := 2e-9

/-- Demo constant from src/utilities.h. -/
noncomputable def kDemoSpecificConstantRsMixtureSecondGaussianMean : ℝ := 3e-8

/-- Demo constant from src/utilities.h. -/
noncomputable def kDemoSpecificConstantRsMixtureSecondGaussianStandardDeviation : ℝ := 2e-9

/-- Demo constant from src/utilities.h. -/
noncomputable def kDemoSpecificConstantRsMixtureFirstGaussianWeight : ℝ := 0.5

/-- Demo constant from src/utilities.h. -/
noncomputable def kDemoSpecificConstantGUniformMin : ℝ := 6e10

/-- Demo constant from src/utilities.h. -/
noncomputable def kDemoSpecificConstantGUniformMax : ℝ := 8e10

/-- Demo constant from src/utilities.h. -/
noncomputable def kDemoSpecificConstantB : ℝ := 2.54e-10

/-- Demo constant from src/utilities.h. -/
noncomputable def kDemoSpecificConstantMUniformMin : ℝ := 1.9

/-- Demo constant from src/utilities.h. -/
noncomputable def kDemoSpecificConstantMUniformMax : ℝ := 4.1

/-- loadInputs from the utilities translation unit: when file input is
enabled the six values are copied from the inputDistributions array, else
they are copied from the command-line argument struct. The function writes
through its six output pointers; here it returns the six values. -/
noncomputable def loadInputs
    (inputDistributions : InputDistributionIndex → ℝ)
    (arguments : CommandLineArguments) : ModelInputs :=
  if arguments.common.isInputFromFileEnabled then
    { b := inputDistributions InputDistributionIndex.b
      G := inputDistributions InputDistributionIndex.G
      gamma := inputDistributions InputDistributionIndex.gamma
      M := inputDistributions InputDistributionIndex.M
      phi := inputDistributions InputDistributionIndex.phi
      Rs := inputDistributions InputDistributionIndex.Rs }
  else
    { b := arguments.b
      G := arguments.G
      gamma := arguments.gamma
      M := arguments.M
      phi := arguments.phi
      Rs := arguments.Rs }

/-! ## UxHw sampling, modelled from the specification

The native implementation of the UxHw calls lives in the uxhw translation
unit, which is not part of the repository snapshot. -/

/-- Distribution Specification from specification section 3: constant,
uniform, gaussian, or two-component mixture. -/
inductive DistSpec where
  | constant (v : ℝ)
  | uniformDist (lo hi : ℝ)
  | gaussDist (mean sd : ℝ)
  | mixture (a c : DistSpec) (wA : ℝ)

/-- A deterministic stream of random variates together with a position,
standing for the injectable randomness source of specification section
4.2. -/
structure RNG where
  stream : ℕ → ℝ
  pos : ℕ

/-- Advance the randomness source by one variate. -/
def RNG.next (r : RNG) : ℝ × RNG :=
  (r.stream r.pos, { stream := r.stream, pos := r.pos + 1 })

/-- Modelled from the spec: the native UxHw sampling (uxhw translation unit,
absent from the snapshot) which, per specification section 4.2, turns a
Distribution Specification and a randomness source into one scalar sample.
A uniform sample consumes one variate u as lo + (hi - lo) * u; a gaussian
sample consumes one variate z, read as a standard normal deviate, as
mean + sd * z; a mixture consumes one variate u and samples its first
component when u is below the first weight, else its second component;
a constant consumes nothing. -/
noncomputable def sampleDist : DistSpec → RNG → ℝ × RNG
  | DistSpec.constant v, r => (v, r)
  | DistSpec.uniformDist lo hi, r =>
      let ur := r.next
      (lo + (hi - lo) * ur.1, ur.2)
  | DistSpec.gaussDist mean sd, r =>
      let zr := r.next
      (mean + sd * zr.1, zr.2)
  | DistSpec.mixture a c wA, r =>
      let ur := r.next
      if ur.1 < wA then sampleDist a ur.2 else sampleDist c ur.2

/-- The default gamma source, from setDefaultCommandLineArguments. -/
noncomputable def defaultGammaDist : DistSpec :=
  DistSpec.uniformDist kDemoSpecificConstantGammaUniformMin kDemoSpecificConstantGammaUniformMax

/-- The default phi source, from setDefaultCommandLineArguments. -/
noncomputable def defaultPhiDist : DistSpec :=
  DistSpec.uniformDist kDemoSpecificConstantPhiUniformMin kDemoSpecificConstantPhiUniformMax

/-- The default Rs source, from setDefaultCommandLineArguments. -/
noncomputable def defaultRsDist : DistSpec :=
  DistSpec.mixture
    (DistSpec.gaussDist kDemoSpecificConstantRsMixtureFirstGaussianMean
      kDemoSpecificConstantRsMixtureFirstGaussianStandardDeviation)
    (DistSpec.gaussDist kDemoSpecificConstantRsMixtureSecondGaussianMean
      kDemoSpecificConstantRsMixtureSecondGaussianStandardDeviation)
    kDemoSpecificConstantRsMixtureFirstGaussianWeight

/-- The default G source, from setDefaultCommandLineArguments. -/
noncomputable def defaultGDist : DistSpec :=
  DistSpec.uniformDist kDemoSpecificConstantGUniformMin kDemoSpecificConstantGUniformMax

/-- The default M source, from setDefaultCommandLineArguments. -/
noncomputable def defaultMDist : DistSpec :=
  DistSpec.uniformDist kDemoSpecificConstantMUniformMin kDemoSpecificConstantMUniformMax

/-- setDefaultCommandLineArguments from the utilities translation unit:
fills the argument struct with one sample from each default parameter
source, drawn in the order the struct literal writes them (gamma, phi, Rs,
G, b, M), with b a constant. The randomness source is threaded through the
UxHw calls. -/
noncomputable def setDefaultCommandLineArguments
    (common : CommonCommandLineArguments) (r : RNG) : CommandLineArguments × RNG :=
  let gr := sampleDist defaultGammaDist r
  let pr := sampleDist defaultPhiDist gr.2
  let rr := sampleDist defaultRsDist pr.2
  let sr := sampleDist defaultGDist rr.2
  let mr := sampleDist defaultMDist sr.2
  ({ common := common
     gamma := gr.1
     phi := pr.1
     Rs := rr.1
     G := sr.1
     b := kDemoSpecificConstantB
     M := mr.1 }, mr.2)

/-! ## Command-line validation -/

/-- Character-list matcher: the needle matches at the head of the
haystack. -/
def matchesAt : List Char → List Char → Bool
  | [], _ => true
  | _ :: _, [] => false
  | a :: as, c :: cs => a == c && matchesAt as cs

/-- The needle occurs somewhere inside the haystack, the semantics of the C
strstr test. -/
def hasSubAt (needle : List Char) : List Char → Bool
  | [] => matchesAt needle []
  | c :: cs => matchesAt needle (c :: cs) || hasSubAt needle cs

/-- The two characters of the constant string kConstantStringUx. -/
def uxChars : List Char := ['U', 'x']

/-- The strstr(arg, "Ux") != NULL test of getCommandLineArguments. -/
def containsUx (s : String) : Bool := hasSubAt uxChars s.toList

/-- One of the six per-parameter validation blocks of
getCommandLineArguments: a missing argument keeps the current (default)
value; in Monte Carlo mode an argument containing "Ux" is an error; an
argument that the external double parser rejects is an error; otherwise the
parsed value replaces the default. The external parseDoubleChecked (common
submodule, absent from the snapshot) is the parseDouble parameter, returning
none on a malformed number as the specification requires. -/
noncomputable def processParamArg (isMonteCarloMode : Bool)
    (parseDouble : String → Option ℝ) (arg : Option String)
    (current : ℝ) : Except Unit ℝ :=
  match arg with
  | none => Except.ok current
  | some s =>
      if isMonteCarloMode && containsUx s then Except.error ()
      else
        match parseDouble s with
        | none => Except.error ()
        | some v => Except.ok v

/-- The result of the external parseArgs tokenizer (common submodule): the
common flags together with the six optional per-parameter argument
strings. -/
structure PreParsedArguments where
  common : CommonCommandLineArguments
  gammaArg : Option String
  phiArg : Option String
  RsArg : Option String
  GArg : Option String
  bArg : Option String
  MArg : Option String

/-- Names for the six parameter options of the demo. -/
inductive ParamIndex where
  | gamma
  | phi
  | Rs
  | G
  | b
  | M
deriving DecidableEq

/-- Selects the argument string of one parameter option. -/
def PreParsedArguments.paramArg : PreParsedArguments → ParamIndex → Option String
  | pre, ParamIndex.gamma => pre.gammaArg
  | pre, ParamIndex.phi => pre.phiArg
  | pre, ParamIndex.Rs => pre.RsArg
  | pre, ParamIndex.G => pre.GArg
  | pre, ParamIndex.b => pre.bArg
  | pre, ParamIndex.M => pre.MArg

/-- The six per-parameter validation blocks of getCommandLineArguments in
source order (gamma, phi, Rs, G, b, M); the first failing block aborts the
sequence, exactly as the early returns do in the C code. -/
noncomputable def applyParamArguments (isMonteCarloMode : Bool)
    (parseDouble : String → Option ℝ) (pre : PreParsedArguments)
    (defaults : CommandLineArguments) : Except Unit CommandLineArguments :=
  match processParamArg isMonteCarloMode parseDouble pre.gammaArg defaults.gamma with
  | Except.error e => Except.error e
  | Except.ok gamma =>
  match processParamArg isMonteCarloMode parseDouble pre.phiArg defaults.phi with
  | Except.error e => Except.error e
  | Except.ok phi =>
  match processParamArg isMonteCarloMode parseDouble pre.RsArg defaults.Rs with
  | Except.error e => Except.error e
  | Except.ok Rs =>
  match processParamArg isMonteCarloMode parseDouble pre.GArg defaults.G with
  | Except.error e => Except.error e
  | Except.ok G =>
  match processParamArg isMonteCarloMode parseDouble pre.bArg defaults.b with
  | Except.error e => Except.error e
  | Except.ok b =>
  match processParamArg isMonteCarloMode parseDouble pre.MArg defaults.M with
  | Except.error e => Except.error e
  | Except.ok M =>
      Except.ok { defaults with gamma := gamma, phi := phi, Rs := Rs, G := G, b := b, M := M }

/-- The three ways getCommandLineArguments can leave: returning the
validated arguments (and the advanced randomness source), terminating the
process successfully from the help branch, or returning the error code. -/
inductive GetArgsResult where
  | success (arguments : CommandLineArguments) (r : RNG)
  | helpExit
  | error

/-- getCommandLineArguments from the utilities translation unit, applied to
an already tokenized command line: set the sampled defaults, then in source
order print usage and exit on the help flag, reject the unsupported
output-select option, reject file input combined with Monte Carlo mode, and
finally run the six per-parameter validation blocks. -/
noncomputable def getCommandLineArguments (parseDouble : String → Option ℝ)
    (pre : PreParsedArguments) (r : RNG) : GetArgsResult :=
  let dr := setDefaultCommandLineArguments pre.common r
  if pre.common.isHelpEnabled then GetArgsResult.helpExit
  else if pre.common.isOutputSelected then GetArgsResult.error
  else if pre.common.isInputFromFileEnabled && pre.common.isMonteCarloMode then
    GetArgsResult.error
  else
    match applyParamArguments pre.common.isMonteCarloMode parseDouble pre dr.1 with
    | Except.error _ => GetArgsResult.error
    | Except.ok arguments => GetArgsResult.success arguments dr.2

/-! ## The driver loop of main -/

/-- Process exit status. -/
inductive ExitStatus where
  | success
  | failure
deriving DecidableEq

/-- Observable output of one run, abstracting the stdout prints, the stderr
error report of the CSV writer, and the data.out persistence of the Monte
Carlo samples. -/
inductive Event where
  | verboseInputs (gamma phi Rs G b M : ℝ)
  | benchmarkLine (value : ℝ) (microseconds : ℤ)
  | jsonResult (sigmaCMpa : ℝ) (withTiming : Bool) (cpuTimeUsedInSeconds : ℝ)
  | humanResult (sigmaCMpa : ℝ)
  | timingLine (cpuTimeUsedInSeconds : ℝ)
  | csvWriteError (path : String)
  | dataOutSave (samples : List ℝ) (microseconds : ℤ)

/-- Whether the event is a print on standard output (the stderr CSV error
report and the data.out file write are not). -/
def Event.isStdoutPrint : Event → Bool
  | Event.csvWriteError _ => false
  | Event.dataOutSave _ _ => false
  | _ => true

/-- Whether the event reports the scalar result of the run (the benchmark
line, the JSON record, or the human-readable line). -/
def Event.isResultReport : Event → Bool
  | Event.benchmarkLine _ _ => true
  | Event.jsonResult _ _ _ => true
  | Event.humanResult _ => true
  | _ => false

/-- The scalar result value an output event reports. -/
noncomputable def Event.reportedValue : Event → ℝ
  | Event.benchmarkLine v _ => v
  | Event.jsonResult v _ _ => v
  | Event.humanResult v => v
  | _ => 0

/-- Run Statistics record from the common submodule. -/
structure MeanAndVariance where
  mean : ℝ
  variance : ℝ

/-- Modelled from the spec: calculateMeanAndVarianceOfDoubleSamples of the
common submodule (absent from the snapshot), per specification section 4.4:
the mean is the sum of the samples divided by their count, the variance the
mean of the squared deviations from that mean. -/
noncomputable def calculateMeanAndVarianceOfDoubleSamples
    (samples : List ℝ) : MeanAndVariance :=
  let mean := samples.sum / samples.length
  { mean := mean
    variance := (samples.map (fun x => (x - mean) ^ 2)).sum / samples.length }

/-- The external world of one run: the CSV contents an enabled input file
yields, whether the input read and output write succeed, the clock
measurement, and the value an uninitialized C double happens to hold. -/
structure Oracle where
  fileDistributions : InputDistributionIndex → ℝ
  fileReadOk : Bool
  csvWriteOk : Bool
  cpuTimeUsedInSeconds : ℝ
  uninitDouble : ℝ

/-- The locals of main mutated by the iteration loop. -/
structure LoopState where
  events : List Event
  monteCarloOutputSamples : List ℝ
  sigmaCMpa : ℝ
  benchmarkOutput : ℝ

/-- One iteration of the kernel loop of main: load the inputs, print them in
verbose mode, evaluate the model, and record the output in the Monte Carlo
sample buffer, or in benchmarkOutput when only benchmarking. -/
noncomputable def loopIteration (arguments : CommandLineArguments)
    (inputDistributions : InputDistributionIndex → ℝ) (s : LoopState) : LoopState :=
  let inputs := loadInputs inputDistributions arguments
  let events :=
    if arguments.common.isVerbose then
      s.events ++ [Event.verboseInputs inputs.gamma inputs.phi inputs.Rs inputs.G inputs.b inputs.M]
    else s.events
  let sigma := computeBrownHamModelOutput inputs.gamma inputs.phi inputs.Rs inputs.G inputs.b inputs.M
  if arguments.common.isMonteCarloMode then
    { events := events
      monteCarloOutputSamples := s.monteCarloOutputSamples ++ [sigma]
      sigmaCMpa := sigma
      benchmarkOutput := s.benchmarkOutput }
  else if arguments.common.isBenchmarkingMode then
    { events := events
      monteCarloOutputSamples := s.monteCarloOutputSamples
      sigmaCMpa := sigma
      benchmarkOutput := sigma }
  else
    { events := events
      monteCarloOutputSamples := s.monteCarloOutputSamples
      sigmaCMpa := sigma
      benchmarkOutput := s.benchmarkOutput }

/-- The kernel loop of main, iterated the configured number of times. -/
noncomputable def runLoop (arguments : CommandLineArguments)
    (inputDistributions : InputDistributionIndex → ℝ) : ℕ → LoopState → LoopState
  | 0, s => s
  | n + 1, s => runLoop arguments inputDistributions n (loopIteration arguments inputDistributions s)

/-- The model output one iteration produces from the loaded inputs. -/
noncomputable def kernelOutput (inputDistributions : InputDistributionIndex → ℝ)
    (arguments : CommandLineArguments) : ℝ :=
  let inputs := loadInputs inputDistributions arguments
  computeBrownHamModelOutput inputs.gamma inputs.phi inputs.Rs inputs.G inputs.b inputs.M

/-- The locals of main before the first iteration: empty event list, empty
sample buffer, and the two result doubles still uninitialized. -/
noncomputable def initialLoopState (oracle : Oracle) : LoopState :=
  { events := []
    monteCarloOutputSamples := []
    sigmaCMpa := oracle.uninitDouble
    benchmarkOutput := oracle.uninitDouble }

/-- The verbose-mode print of the loaded inputs one iteration emits. -/
noncomputable def verboseEvent (inputDistributions : InputDistributionIndex → ℝ)
    (arguments : CommandLineArguments) : Event :=
  let inputs := loadInputs inputDistributions arguments
  Event.verboseInputs inputs.gamma inputs.phi inputs.Rs inputs.G inputs.b inputs.M

/-- What one completed run of main leaves behind. -/
structure ExecResult where
  exitCode : ExitStatus
  events : List Event
  monteCarloOutputSamples : List ℝ
  didReadInputFile : Bool
  didAllocateBuffer : Bool
  loopIterations : ℕ

/-- The post-loop reporting section of main: in benchmarking mode exactly
the benchmark line; otherwise the JSON record or the human-readable line,
followed by the timing line when timing is enabled. -/
noncomputable def reportEvents (arguments : CommandLineArguments) (oracle : Oracle)
    (sigmaCMpa benchmarkOutput : ℝ) : List Event :=
  if arguments.common.isBenchmarkingMode then
    [Event.benchmarkLine benchmarkOutput (Int.floor (oracle.cpuTimeUsedInSeconds * 1000000))]
  else
    (if arguments.common.isOutputJSONMode then
      [Event.jsonResult sigmaCMpa arguments.common.isTimingEnabled oracle.cpuTimeUsedInSeconds]
    else
      [Event.humanResult sigmaCMpa]) ++
    (if arguments.common.isTimingEnabled then
      [Event.timingLine oracle.cpuTimeUsedInSeconds]
    else [])

/-- The body of main after getCommandLineArguments succeeded: read the CSV
when file input is enabled (failure exits), allocate the sample buffer in
Monte Carlo mode, run the kernel loop, replace benchmarkOutput with the
Run Statistics mean in Monte Carlo mode, report, persist the Monte Carlo
samples to data.out, and otherwise write the output CSV when enabled, a
failing write reporting the offending path on stderr and exiting with
failure. -/
noncomputable def runMain (arguments : CommandLineArguments) (oracle : Oracle) : ExecResult :=
  if arguments.common.isInputFromFileEnabled && !oracle.fileReadOk then
    { exitCode := ExitStatus.failure
      events := []
      monteCarloOutputSamples := []
      didReadInputFile := true
      didAllocateBuffer := false
      loopIterations := 0 }
  else
    let n := arguments.common.numberOfMonteCarloIterations
    let s := runLoop arguments oracle.fileDistributions n (initialLoopState oracle)
    let benchmarkOutput :=
      if arguments.common.isMonteCarloMode then
        (calculateMeanAndVarianceOfDoubleSamples s.monteCarloOutputSamples).mean
      else s.benchmarkOutput
    let outEvents := reportEvents arguments oracle s.sigmaCMpa benchmarkOutput
    if arguments.common.isMonteCarloMode then
      { exitCode := ExitStatus.success
        events := s.events ++ outEvents ++
          [Event.dataOutSave s.monteCarloOutputSamples
            (Int.floor (oracle.cpuTimeUsedInSeconds * 1000000))]
        monteCarloOutputSamples := s.monteCarloOutputSamples
        didReadInputFile := arguments.common.isInputFromFileEnabled
        didAllocateBuffer := true
        loopIterations := n }
    else if arguments.common.isWriteToFileEnabled && !oracle.csvWriteOk then
      { exitCode := ExitStatus.failure
        events := s.events ++ outEvents ++ [Event.csvWriteError arguments.common.outputFilePath]
        monteCarloOutputSamples := s.monteCarloOutputSamples
        didReadInputFile := arguments.common.isInputFromFileEnabled
        didAllocateBuffer := false
        loopIterations := n }
    else
      { exitCode := ExitStatus.success
        events := s.events ++ outEvents
        monteCarloOutputSamples := s.monteCarloOutputSamples
        didReadInputFile := arguments.common.isInputFromFileEnabled
        didAllocateBuffer := false
        loopIterations := n }

/-- Either main returned with a result, or the help branch terminated the
process from inside getCommandLineArguments. -/
inductive ProgramResult where
  | exited (result : ExecResult)
  | helpExited

/-- The whole program: getCommandLineArguments, then the body of main. A
validation error makes main return the failure status before reading any
file, allocating any buffer or entering the loop. -/
noncomputable def runProgram (parseDouble : String → Option ℝ)
    (pre : PreParsedArguments) (r : RNG) (oracle : Oracle) : ProgramResult :=
  match getCommandLineArguments parseDouble pre r with
  | GetArgsResult.error =>
      ProgramResult.exited
        { exitCode := ExitStatus.failure
          events := []
          monteCarloOutputSamples := []
          didReadInputFile := false
          didAllocateBuffer := false
          loopIterations := 0 }
  | GetArgsResult.helpExit => ProgramResult.helpExited
  | GetArgsResult.success arguments _ => ProgramResult.exited (runMain arguments oracle)

/-- The events a run prints on standard output. -/
def stdoutPrints (result : ExecResult) : List Event :=
  result.events.filter Event.isStdoutPrint

/-! ## The per-iteration sampling pipeline the specification describes

These definitions follow the words of specification sections 3 and 4.3
(a Sample Set is produced by drawing from each Parameter source once per
iteration, and Monte Carlo mode draws N independent Sample Sets); they are
compared against the source-derived pipeline above. -/

/-- One Sample Set drawn fresh: one draw from each parameter source, in the
same source order the defaults are drawn in. -/
noncomputable def specDrawSampleSet (r : RNG) : ModelInputs × RNG :=
  let gr := sampleDist defaultGammaDist r
  let pr := sampleDist defaultPhiDist gr.2
  let rr := sampleDist defaultRsDist pr.2
  let sr := sampleDist defaultGDist rr.2
  let mr := sampleDist defaultMDist sr.2
  ({ gamma := gr.1
     phi := pr.1
     Rs := rr.1
     G := sr.1
     b := kDemoSpecificConstantB
     M := mr.1 }, mr.2)

/-- The Output Sample Buffer the specification describes: element i is the
model evaluated on a Sample Set drawn fresh on iteration i. -/
noncomputable def specMonteCarloOutputs : RNG → ℕ → List ℝ
  | _, 0 => []
  | r, n + 1 =>
      let sr := specDrawSampleSet r
      computeBrownHamModelOutput sr.1.gamma sr.1.phi sr.1.Rs sr.1.G sr.1.b sr.1.M ::
        specMonteCarloOutputs sr.2 n

/-! ## Concrete configurations used to instantiate the theorems -/

/-- A flag record with every flag cleared, one iteration and empty paths. -/
def quietCommon : CommonCommandLineArguments :=
  { isInputFromFileEnabled := false
    isMonteCarloMode := false
    numberOfMonteCarloIterations := 1
    isTimingEnabled := false
    isVerbose := false
    isBenchmarkingMode := false
    isOutputJSONMode := false
    isWriteToFileEnabled := false
    isHelpEnabled := false
    isOutputSelected := false
    inputFilePath := ""
    outputFilePath := "" }

/-- An argument record with the given flags and every parameter set to 1. -/
noncomputable def unitArguments (common : CommonCommandLineArguments) : CommandLineArguments :=
  { common := common, gamma := 1, phi := 1, Rs := 1, G := 1, b := 1, M := 1 }

/-- An external world where every operation succeeds and every measurement
is zero. -/
noncomputable def trivialOracle : Oracle :=
  { fileDistributions := fun _ => 0
    fileReadOk := true
    csvWriteOk := true
    cpuTimeUsedInSeconds := 0
    uninitDouble := 0 }

/-- A randomness source that only ever yields zero. -/
noncomputable def zeroRNG : RNG := { stream := fun _ => 0, pos := 0 }

/-- A double parser that rejects every string. -/
def noParse : String → Option ℝ := fun _ => none

/-- Monte Carlo mode with one iteration. -/
def mcCommon : CommonCommandLineArguments := { quietCommon with isMonteCarloMode := true }

/-- Monte Carlo mode with one iteration and unit parameters. -/
noncomputable def mcArguments : CommandLineArguments := unitArguments mcCommon

/-- Benchmarking mode combined with verbose mode. -/
noncomputable def benchVerboseArguments : CommandLineArguments :=
  unitArguments { quietCommon with isBenchmarkingMode := true, isVerbose := true }

/-- Benchmarking mode alone. -/
noncomputable def benchQuietArguments : CommandLineArguments :=
  unitArguments { quietCommon with isBenchmarkingMode := true }

/-- Output-file writing enabled, unit parameters. -/
noncomputable def c8Arguments : CommandLineArguments :=
  unitArguments { quietCommon with isWriteToFileEnabled := true }

/-- An external world whose CSV write fails. -/
noncomputable def c8Oracle : Oracle := { trivialOracle with csvWriteOk := false }

/-- A tokenized command line requesting both file input and Monte Carlo
mode. -/
def c4Pre : PreParsedArguments :=
  { common := { quietCommon with isInputFromFileEnabled := true, isMonteCarloMode := true }
    gammaArg := none
    phiArg := none
    RsArg := none
    GArg := none
    bArg := none
    MArg := none }

/-- A parameter argument string containing the Ux marker. -/
def c10UxString : String := "Ux"

/-- A tokenized command line in Monte Carlo mode whose gamma option carries
a Ux string. -/
def c10Pre : PreParsedArguments :=
  { common := mcCommon
    gammaArg := some c10UxString
    phiArg := none
    RsArg := none
    GArg := none
    bArg := none
    MArg := none }

/-- A randomness stream whose twelfth variate is one half and whose other
variates are zero: the twelfth variate is the one a fresh second-iteration
Taylor-factor draw would consume. -/
noncomputable def c3Stream : ℕ → ℝ := fun n => if n = 11 then 1 / 2 else 0

/-- The randomness source of the divergence run, at position zero. -/
noncomputable def c3RNG : RNG := { stream := c3Stream, pos := 0 }

/-- Monte Carlo mode with two iterations. -/
def c3Common : CommonCommandLineArguments :=
  { quietCommon with isMonteCarloMode := true, numberOfMonteCarloIterations := 2 }

/-- A tokenized command line with two Monte Carlo iterations and no
parameter overrides, so all six parameters keep their sampled defaults. -/
def c3Pre : PreParsedArguments :=
  { common := c3Common
    gammaArg := none
    phiArg := none
    RsArg := none
    GArg := none
    bArg := none
    MArg := none }

/-- The argument values the default sampling produces from c3RNG: every
default draw consumes a zero variate, so each parameter sits at the low end
of its source. -/
noncomputable def c3Arguments : CommandLineArguments :=
  { common := c3Common
    gamma := 0.15
    phi := 0.3
    Rs := 1e-8
    G := 6e10
    b := 2.54e-10
    M := 1.9 }

/-! ## Helper lemmas about the kernel loop -/

theorem loopIteration_sigmaCMpa (arguments : CommandLineArguments)
    (d : InputDistributionIndex → ℝ) (s : LoopState) :
    (loopIteration arguments d s).sigmaCMpa = kernelOutput d arguments := by
  unfold loopIteration kernelOutput
  by_cases h1 : arguments.common.isMonteCarloMode = true <;>
    by_cases h2 : arguments.common.isBenchmarkingMode = true <;>
    simp [h1, h2]

theorem loopIteration_samples_mc (arguments : CommandLineArguments)
    (d : InputDistributionIndex → ℝ) (s : LoopState)
    (hmc : arguments.common.isMonteCarloMode = true) :
    (loopIteration arguments d s).monteCarloOutputSamples =
      s.monteCarloOutputSamples ++ [kernelOutput d arguments] := by
  unfold loopIteration kernelOutput
  simp [hmc]

theorem loopIteration_samples_not_mc (arguments : CommandLineArguments)
    (d : InputDistributionIndex → ℝ) (s : LoopState)
    (hmc : arguments.common.isMonteCarloMode = false) :
    (loopIteration arguments d s).monteCarloOutputSamples = s.monteCarloOutputSamples := by
  unfold loopIteration
  by_cases h2 : arguments.common.isBenchmarkingMode = true <;> simp [hmc, h2]

theorem loopIteration_events (arguments : CommandLineArguments)
    (d : InputDistributionIndex → ℝ) (s : LoopState) :
    (loopIteration arguments d s).events =
      s.events ++
        (if arguments.common.isVerbose = true then [verboseEvent d arguments] else []) := by
  unfold loopIteration verboseEvent
  by_cases hv : arguments.common.isVerbose = true <;>
    by_cases h1 : arguments.common.isMonteCarloMode = true <;>
    by_cases h2 : arguments.common.isBenchmarkingMode = true <;>
    simp [hv, h1, h2]

theorem runLoop_samples_mc (arguments : CommandLineArguments)
    (d : InputDistributionIndex → ℝ)
    (hmc : arguments.common.isMonteCarloMode = true) :
    ∀ (n : ℕ) (s : LoopState),
      (runLoop arguments d n s).monteCarloOutputSamples =
        s.monteCarloOutputSamples ++ List.replicate n (kernelOutput d arguments)
  | 0, s => by simp [runLoop]
  | n + 1, s => by
      rw [runLoop, runLoop_samples_mc arguments d hmc n,
        loopIteration_samples_mc arguments d s hmc, List.replicate_succ,
        List.append_assoc]
      simp

theorem runLoop_samples_not_mc (arguments : CommandLineArguments)
    (d : InputDistributionIndex → ℝ)
    (hmc : arguments.common.isMonteCarloMode = false) :
    ∀ (n : ℕ) (s : LoopState),
      (runLoop arguments d n s).monteCarloOutputSamples = s.monteCarloOutputSamples
  | 0, s => by simp [runLoop]
  | n + 1, s => by
      rw [runLoop, runLoop_samples_not_mc arguments d hmc n,
        loopIteration_samples_not_mc arguments d s hmc]

theorem runLoop_sigmaCMpa (arguments : CommandLineArguments)
    (d : InputDistributionIndex → ℝ) :
    ∀ (n : ℕ), 0 < n → ∀ s : LoopState,
      (runLoop arguments d n s).sigmaCMpa = kernelOutput d arguments
  | 0, hn, _ => absurd hn (lt_irrefl 0)
  | n + 1, _, s => by
      rcases Nat.eq_zero_or_pos n with hz | hpos
      · subst hz
        rw [runLoop, runLoop]
        exact loopIteration_sigmaCMpa arguments d _
      · rw [runLoop]
        exact runLoop_sigmaCMpa arguments d n hpos _

theorem runLoop_events (arguments : CommandLineArguments)
    (d : InputDistributionIndex → ℝ) :
    ∀ (n : ℕ) (s : LoopState),
      (runLoop arguments d n s).events =
        s.events ++
          (if arguments.common.isVerbose = true then
            List.replicate n (verboseEvent d arguments)
          else [])
  | 0, s => by simp [runLoop]
  | n + 1, s => by
      rw [runLoop, runLoop_events arguments d n, loopIteration_events arguments d s]
      by_cases hv : arguments.common.isVerbose = true <;>
        simp [hv, List.replicate_succ]

theorem mean_replicate (n : ℕ) (hn : 0 < n) (x : ℝ) :
    (calculateMeanAndVarianceOfDoubleSamples (List.replicate n x)).mean = x := by
  unfold calculateMeanAndVarianceOfDoubleSamples
  simp only [List.sum_replicate, List.length_replicate, nsmul_eq_mul]
  exact mul_div_cancel_left₀ x (Nat.cast_ne_zero.mpr hn.ne')

/-! ## Claim C1 -/

/-- C1: for all six real inputs with a nonzero Burgers vector, the model
evaluator returns (M*gamma / (2*b)) * ( sqrt( (8*gamma*phi*Rs) /
(pi*G*b^2) ) - phi ) / 1000000, the cutting stress in megapascals, which is
exactly the formula of the specification. -/
theorem computeBrownHamModelOutput_matches_spec_formula
    (gamma phi Rs G b M : ℝ) (hb : b ≠ 0) :
    computeBrownHamModelOutput gamma phi Rs G b M =
      brownHamSpecSigmaC gamma phi Rs G b M := rfl

/-- Witness for C1 at a concrete input with a nonzero Burgers vector. -/
theorem computeBrownHamModelOutput_matches_spec_formula_witness :
    (1 : ℝ) ≠ 0 ∧
    computeBrownHamModelOutput 0.2 0.375 2e-8 7e10 1 3 =
      brownHamSpecSigmaC 0.2 0.375 2e-8 7e10 1 3 :=
  ⟨by norm_num,
    computeBrownHamModelOutput_matches_spec_formula 0.2 0.375 2e-8 7e10 1 3 (by norm_num)⟩

/-! ## Claim C6 -/

/-- C6: the total embedding of the evaluator propagates a none result (the
model of the IEEE not-a-number) whenever the radicand is negative, and
under the documented preconditions b nonzero, G positive and a nonnegative
radicand every guard is unreachable: the checked evaluator agrees with the
plain evaluator. -/
theorem checked_evaluator_guards (gamma phi Rs G b M : ℝ) :
    (radicand gamma phi Rs G b < 0 →
      computeBrownHamModelOutputChecked gamma phi Rs G b M = none) ∧
    (b ≠ 0 → 0 < G → 0 ≤ radicand gamma phi Rs G b →
      computeBrownHamModelOutputChecked gamma phi Rs G b M =
        some (computeBrownHamModelOutput gamma phi Rs G b M)) := by
  constructor
  · intro h
    rw [computeBrownHamModelOutputChecked]
    by_cases hb : b = 0
    · rw [if_pos hb]
    · have hd : Real.pi * G * b ^ 2 ≠ 0 := by
        intro h0
        rw [radicand, h0, div_zero] at h
        exact absurd h (lt_irrefl 0)
      rw [if_neg hb, if_neg hd, if_pos h]
  · intro hb hG hrad
    have hd : Real.pi * G * b ^ 2 ≠ 0 :=
      mul_ne_zero (mul_ne_zero (ne_of_gt Real.pi_pos) (ne_of_gt hG)) (pow_ne_zero 2 hb)
    rw [computeBrownHamModelOutputChecked, if_neg hb, if_neg hd, if_neg (not_lt.mpr hrad)]

/-- Witness for C6: a negative radicand input propagates none, and a
precondition-respecting input evaluates to the plain result. -/
theorem checked_evaluator_guards_witness :
    computeBrownHamModelOutputChecked (-1) 1 1 1 1 1 = none ∧
    computeBrownHamModelOutputChecked 1 1 1 1 1 1 =
      some (computeBrownHamModelOutput 1 1 1 1 1 1) :=
  ⟨(checked_evaluator_guards (-1) 1 1 1 1 1).1 (by
      rw [radicand]
      have h : (8 * (-1) * 1 * 1 : ℝ) / (Real.pi * 1 * 1 ^ 2) = (-8) / Real.pi := by
        norm_num
      rw [h]
      exact div_neg_of_neg_of_pos (by norm_num) Real.pi_pos),
    (checked_evaluator_guards 1 1 1 1 1 1).2 (by norm_num) (by norm_num) (by
      rw [radicand]
      positivity)⟩

/-! ## Claim C7 -/

/-- C7: the model evaluator is deterministic on the valid domain: two
evaluations at identical inputs give identical outputs, its result being a
function of its six arguments and of nothing else. -/
theorem computeBrownHamModelOutput_deterministic
    (gamma phi Rs G b M gamma2 phi2 Rs2 G2 b2 M2 : ℝ)
    (hb : b ≠ 0) (hG : 0 < G) (hrad : 0 ≤ radicand gamma phi Rs G b)
    (h1 : gamma = gamma2) (h2 : phi = phi2) (h3 : Rs = Rs2) (h4 : G = G2)
    (h5 : b = b2) (h6 : M = M2) :
    computeBrownHamModelOutput gamma phi Rs G b M =
      computeBrownHamModelOutput gamma2 phi2 Rs2 G2 b2 M2 := by
  subst h1; subst h2; subst h3; subst h4; subst h5; subst h6; rfl

/-- Witness for C7 at a concrete valid input. -/
theorem computeBrownHamModelOutput_deterministic_witness :
    computeBrownHamModelOutput 1 1 1 1 1 1 = computeBrownHamModelOutput 1 1 1 1 1 1 :=
  computeBrownHamModelOutput_deterministic 1 1 1 1 1 1 1 1 1 1 1 1
    (by norm_num) (by norm_num) (by rw [radicand]; positivity)
    rfl rfl rfl rfl rfl rfl

/-! ## Helper lemmas about runMain -/

theorem runMain_samples (arguments : CommandLineArguments) (oracle : Oracle)
    (hcond : (arguments.common.isInputFromFileEnabled && !oracle.fileReadOk) = false) :
    (runMain arguments oracle).monteCarloOutputSamples =
      (runLoop arguments oracle.fileDistributions
        arguments.common.numberOfMonteCarloIterations
        (initialLoopState oracle)).monteCarloOutputSamples := by
  rw [runMain]
  by_cases hmc : arguments.common.isMonteCarloMode = true <;>
    by_cases hwr : (arguments.common.isWriteToFileEnabled && !oracle.csvWriteOk) = true <;>
    simp [hcond, hmc, hwr]

theorem runMain_events_mc (arguments : CommandLineArguments) (oracle : Oracle)
    (hcond : (arguments.common.isInputFromFileEnabled && !oracle.fileReadOk) = false)
    (hmc : arguments.common.isMonteCarloMode = true) :
    (runMain arguments oracle).events =
      (runLoop arguments oracle.fileDistributions
        arguments.common.numberOfMonteCarloIterations (initialLoopState oracle)).events ++
      reportEvents arguments oracle
        (runLoop arguments oracle.fileDistributions
          arguments.common.numberOfMonteCarloIterations (initialLoopState oracle)).sigmaCMpa
        (calculateMeanAndVarianceOfDoubleSamples
          (runLoop arguments oracle.fileDistributions
            arguments.common.numberOfMonteCarloIterations
            (initialLoopState oracle)).monteCarloOutputSamples).mean ++
      [Event.dataOutSave
        (runLoop arguments oracle.fileDistributions
          arguments.common.numberOfMonteCarloIterations
          (initialLoopState oracle)).monteCarloOutputSamples
        (Int.floor (oracle.cpuTimeUsedInSeconds * 1000000))] := by
  rw [runMain]
  simp [hcond, hmc]

theorem runMain_writefail (arguments : CommandLineArguments) (oracle : Oracle)
    (hcond : (arguments.common.isInputFromFileEnabled && !oracle.fileReadOk) = false)
    (hmc : arguments.common.isMonteCarloMode = false)
    (hwr : (arguments.common.isWriteToFileEnabled && !oracle.csvWriteOk) = true) :
    (runMain arguments oracle).exitCode = ExitStatus.failure ∧
    (runMain arguments oracle).events =
      (runLoop arguments oracle.fileDistributions
        arguments.common.numberOfMonteCarloIterations (initialLoopState oracle)).events ++
      reportEvents arguments oracle
        (runLoop arguments oracle.fileDistributions
          arguments.common.numberOfMonteCarloIterations (initialLoopState oracle)).sigmaCMpa
        (runLoop arguments oracle.fileDistributions
          arguments.common.numberOfMonteCarloIterations
          (initialLoopState oracle)).benchmarkOutput ++
      [Event.csvWriteError arguments.common.outputFilePath] := by
  constructor <;> (rw [runMain]; simp [hcond, hmc, hwr])

theorem runMain_events_plain (arguments : CommandLineArguments) (oracle : Oracle)
    (hcond : (arguments.common.isInputFromFileEnabled && !oracle.fileReadOk) = false)
    (hmc : arguments.common.isMonteCarloMode = false)
    (hwr : (arguments.common.isWriteToFileEnabled && !oracle.csvWriteOk) = false) :
    (runMain arguments oracle).events =
      (runLoop arguments oracle.fileDistributions
        arguments.common.numberOfMonteCarloIterations (initialLoopState oracle)).events ++
      reportEvents arguments oracle
        (runLoop arguments oracle.fileDistributions
          arguments.common.numberOfMonteCarloIterations (initialLoopState oracle)).sigmaCMpa
        (runLoop arguments oracle.fileDistributions
          arguments.common.numberOfMonteCarloIterations
          (initialLoopState oracle)).benchmarkOutput := by
  rw [runMain]
  simp [hcond, hmc, hwr]

theorem reportEvents_report_value (arguments : CommandLineArguments) (oracle : Oracle)
    (v bv : ℝ) :
    ∀ e ∈ reportEvents arguments oracle v bv, e.isResultReport = true →
      e.reportedValue =
        (if arguments.common.isBenchmarkingMode = true then bv else v) := by
  unfold reportEvents
  by_cases hb : arguments.common.isBenchmarkingMode = true <;>
    by_cases hj : arguments.common.isOutputJSONMode = true <;>
    by_cases ht : arguments.common.isTimingEnabled = true <;>
    simp [hb, hj, ht, Event.isResultReport, Event.reportedValue]

theorem reportEvents_mem_report (arguments : CommandLineArguments) (oracle : Oracle)
    (v bv : ℝ) :
    ∃ e ∈ reportEvents arguments oracle v bv, e.isResultReport = true := by
  by_cases hb : arguments.common.isBenchmarkingMode = true
  · exact ⟨Event.benchmarkLine bv (Int.floor (oracle.cpuTimeUsedInSeconds * 1000000)),
      by simp [reportEvents, hb], rfl⟩
  · by_cases hj : arguments.common.isOutputJSONMode = true
    · exact ⟨Event.jsonResult v arguments.common.isTimingEnabled oracle.cpuTimeUsedInSeconds,
        by simp [reportEvents, hb, hj], rfl⟩
    · exact ⟨Event.humanResult v, by simp [reportEvents, hb, hj], rfl⟩

theorem verboseEvent_not_report (d : InputDistributionIndex → ℝ)
    (arguments : CommandLineArguments) :
    (verboseEvent d arguments).isResultReport = false := rfl

/-! ## Claim C9 -/

/-- C9: with file input disabled, loadInputs copies the immutable argument
fields, so it yields the same six values on every call; consequently in
Monte Carlo mode the whole Output Sample Buffer is the configured model
output replicated once per iteration. -/
theorem loadInputs_constant_and_buffer_replicate
    (arguments : CommandLineArguments) (oracle : Oracle)
    (hfile : arguments.common.isInputFromFileEnabled = false)
    (hmc : arguments.common.isMonteCarloMode = true)
    (hn : 0 < arguments.common.numberOfMonteCarloIterations) :
    (∀ d1 d2 : InputDistributionIndex → ℝ,
      loadInputs d1 arguments = loadInputs d2 arguments) ∧
    (runMain arguments oracle).monteCarloOutputSamples =
      List.replicate arguments.common.numberOfMonteCarloIterations
        (computeBrownHamModelOutput arguments.gamma arguments.phi arguments.Rs
          arguments.G arguments.b arguments.M) := by
  have hload : ∀ d : InputDistributionIndex → ℝ,
      loadInputs d arguments =
        { b := arguments.b, G := arguments.G, gamma := arguments.gamma
          M := arguments.M, phi := arguments.phi, Rs := arguments.Rs } := by
    intro d
    rw [loadInputs, if_neg (by simp [hfile])]
  have hkernel : kernelOutput oracle.fileDistributions arguments =
      computeBrownHamModelOutput arguments.gamma arguments.phi arguments.Rs
        arguments.G arguments.b arguments.M := by
    rw [kernelOutput, hload]
  refine ⟨fun d1 d2 => by rw [hload d1, hload d2], ?_⟩
  have hcond : (arguments.common.isInputFromFileEnabled && !oracle.fileReadOk) = false := by
    simp [hfile]
  rw [runMain_samples arguments oracle hcond,
    runLoop_samples_mc arguments oracle.fileDistributions hmc, hkernel]
  simp [initialLoopState]

/-- Witness for C9 at the one-iteration Monte Carlo configuration with unit
parameters. -/
theorem loadInputs_constant_and_buffer_replicate_witness :
    (∀ d1 d2 : InputDistributionIndex → ℝ,
      loadInputs d1 mcArguments = loadInputs d2 mcArguments) ∧
    (runMain mcArguments trivialOracle).monteCarloOutputSamples =
      List.replicate 1 (computeBrownHamModelOutput 1 1 1 1 1 1) :=
  loadInputs_constant_and_buffer_replicate mcArguments trivialOracle rfl rfl Nat.one_pos

/-! ## Claim C2 -/

/-- C2: in Monte Carlo mode, every result-reporting event of a run (the
benchmark line, the JSON record, and the human-readable line alike) carries
a value equal to the Run Statistics mean of the Output Sample Buffer. The
non-benchmark paths report the final sigmaCMpa, which coincides with the
mean because every iteration evaluates the same loaded inputs. -/
theorem monteCarlo_reported_result_is_mean
    (arguments : CommandLineArguments) (oracle : Oracle)
    (hmc : arguments.common.isMonteCarloMode = true)
    (hn : 0 < arguments.common.numberOfMonteCarloIterations) :
    ∀ e ∈ (runMain arguments oracle).events, e.isResultReport = true →
      e.reportedValue =
        (calculateMeanAndVarianceOfDoubleSamples
          (runMain arguments oracle).monteCarloOutputSamples).mean := by
  cases hcond : (arguments.common.isInputFromFileEnabled && !oracle.fileReadOk) with
  | true =>
      intro e he
      rw [runMain, if_pos hcond] at he
      simp at he
  | false =>
      have hloopsamples : (runLoop arguments oracle.fileDistributions
          arguments.common.numberOfMonteCarloIterations
          (initialLoopState oracle)).monteCarloOutputSamples =
          List.replicate arguments.common.numberOfMonteCarloIterations
            (kernelOutput oracle.fileDistributions arguments) := by
        rw [runLoop_samples_mc arguments oracle.fileDistributions hmc]
        simp [initialLoopState]
      have hsamples : (runMain arguments oracle).monteCarloOutputSamples =
          List.replicate arguments.common.numberOfMonteCarloIterations
            (kernelOutput oracle.fileDistributions arguments) := by
        rw [runMain_samples arguments oracle hcond, hloopsamples]
      have hmean : (calculateMeanAndVarianceOfDoubleSamples
          (runMain arguments oracle).monteCarloOutputSamples).mean =
          kernelOutput oracle.fileDistributions arguments := by
        rw [hsamples]
        exact mean_replicate _ hn _
      have hsigma : (runLoop arguments oracle.fileDistributions
          arguments.common.numberOfMonteCarloIterations
          (initialLoopState oracle)).sigmaCMpa =
          kernelOutput oracle.fileDistributions arguments :=
        runLoop_sigmaCMpa arguments oracle.fileDistributions _ hn _
      intro e he hrep
      rw [hmean]
      rw [runMain_events_mc arguments oracle hcond hmc,
        runLoop_events arguments oracle.fileDistributions] at he
      rcases List.mem_append.mp he with he2 | he2
      · rcases List.mem_append.mp he2 with he3 | he3
        · rw [initialLoopState] at he3
          by_cases hv : arguments.common.isVerbose = true
          · rw [if_pos hv] at he3
            simp only [List.nil_append] at he3
            rw [List.eq_of_mem_replicate he3, verboseEvent_not_report] at hrep
            exact absurd hrep (by simp)
          · rw [if_neg hv] at he3
            simp at he3
        · have hval := reportEvents_report_value arguments oracle
            (runLoop arguments oracle.fileDistributions
              arguments.common.numberOfMonteCarloIterations
              (initialLoopState oracle)).sigmaCMpa
            (calculateMeanAndVarianceOfDoubleSamples
              (runLoop arguments oracle.fileDistributions
                arguments.common.numberOfMonteCarloIterations
                (initialLoopState oracle)).monteCarloOutputSamples).mean
            e he3 hrep
          rw [hval, hsigma, hloopsamples, mean_replicate _ hn _]
          by_cases hbm : arguments.common.isBenchmarkingMode = true <;> simp [hbm]
      · rw [List.mem_singleton] at he2
        subst he2
        simp [Event.isResultReport] at hrep

/-- Witness for C2: in the one-iteration Monte Carlo run with unit
parameters, the human-readable report carries the buffer mean. -/
theorem monteCarlo_reported_result_is_mean_witness :
    Event.reportedValue
        (Event.humanResult (kernelOutput trivialOracle.fileDistributions mcArguments)) =
      (calculateMeanAndVarianceOfDoubleSamples
        (runMain mcArguments trivialOracle).monteCarloOutputSamples).mean := by
  have hsigma : (runLoop mcArguments trivialOracle.fileDistributions
      mcArguments.common.numberOfMonteCarloIterations
      (initialLoopState trivialOracle)).sigmaCMpa =
      kernelOutput trivialOracle.fileDistributions mcArguments :=
    runLoop_sigmaCMpa mcArguments trivialOracle.fileDistributions _ Nat.one_pos _
  have hmem : Event.humanResult (kernelOutput trivialOracle.fileDistributions mcArguments) ∈
      (runMain mcArguments trivialOracle).events := by
    rw [runMain_events_mc mcArguments trivialOracle rfl rfl, hsigma]
    simp [reportEvents, mcArguments, unitArguments, mcCommon, quietCommon]
  exact monteCarlo_reported_result_is_mean mcArguments trivialOracle rfl Nat.one_pos
    _ hmem rfl

/-! ## Claim C4 -/

/-- C4: a configuration requesting both file input and Monte Carlo mode is
rejected by getCommandLineArguments, and the process then exits with the
failure status having read no input file, allocated no buffer, loaded no
Sample Set and run no iteration. -/
theorem fileInput_with_monteCarlo_rejected (parseDouble : String → Option ℝ)
    (pre : PreParsedArguments) (r : RNG) (oracle : Oracle)
    (hhelp : pre.common.isHelpEnabled = false)
    (hfile : pre.common.isInputFromFileEnabled = true)
    (hmc : pre.common.isMonteCarloMode = true) :
    getCommandLineArguments parseDouble pre r = GetArgsResult.error ∧
    runProgram parseDouble pre r oracle =
      ProgramResult.exited
        { exitCode := ExitStatus.failure
          events := []
          monteCarloOutputSamples := []
          didReadInputFile := false
          didAllocateBuffer := false
          loopIterations := 0 } := by
  have hget : getCommandLineArguments parseDouble pre r = GetArgsResult.error := by
    rw [getCommandLineArguments]
    by_cases hos : pre.common.isOutputSelected = true
    · simp [hhelp, hos]
    · simp [hhelp, hos, hfile, hmc]
  refine ⟨hget, ?_⟩
  unfold runProgram
  rw [hget]

/-- Witness for C4 at a concrete tokenized command line requesting both
file input and Monte Carlo mode. -/
theorem fileInput_with_monteCarlo_rejected_witness :
    getCommandLineArguments noParse c4Pre zeroRNG = GetArgsResult.error ∧
    runProgram noParse c4Pre zeroRNG trivialOracle =
      ProgramResult.exited
        { exitCode := ExitStatus.failure
          events := []
          monteCarloOutputSamples := []
          didReadInputFile := false
          didAllocateBuffer := false
          loopIterations := 0 } :=
  fileInput_with_monteCarlo_rejected noParse c4Pre zeroRNG trivialOracle rfl rfl rfl

/-! ## Claim C10 -/

theorem processParamArg_error_ux (mc : Bool) (parseDouble : String → Option ℝ)
    (s : String) (v : ℝ) (hmc : mc = true) (hux : containsUx s = true) :
    processParamArg mc parseDouble (some s) v = Except.error () := by
  simp [processParamArg, hmc, hux]

theorem processParamArg_error_parse (mc : Bool) (parseDouble : String → Option ℝ)
    (s : String) (v : ℝ) (hpd : parseDouble s = none) :
    processParamArg mc parseDouble (some s) v = Except.error () := by
  simp only [processParamArg]
  by_cases h : (mc && containsUx s) = true
  · simp [h]
  · simp [h, hpd]

theorem applyParamArguments_error (mc : Bool) (parseDouble : String → Option ℝ)
    (pre : PreParsedArguments) (defaults : CommandLineArguments)
    (i : ParamIndex) (s : String)
    (harg : pre.paramArg i = some s)
    (herr : ∀ v : ℝ, processParamArg mc parseDouble (some s) v = Except.error ()) :
    ∃ e, applyParamArguments mc parseDouble pre defaults = Except.error e := by
  cases i <;> simp only [PreParsedArguments.paramArg] at harg
  case gamma =>
    rw [applyParamArguments, harg, herr defaults.gamma]
    exact ⟨(), rfl⟩
  case phi =>
    rw [applyParamArguments]
    cases h1 : processParamArg mc parseDouble pre.gammaArg defaults.gamma with
    | error e => exact ⟨e, rfl⟩
    | ok v1 =>
        rw [harg, herr defaults.phi]
        exact ⟨(), rfl⟩
  case Rs =>
    rw [applyParamArguments]
    cases h1 : processParamArg mc parseDouble pre.gammaArg defaults.gamma with
    | error e => exact ⟨e, rfl⟩
    | ok v1 =>
        cases h2 : processParamArg mc parseDouble pre.phiArg defaults.phi with
        | error e => exact ⟨e, rfl⟩
        | ok v2 =>
            rw [harg, herr defaults.Rs]
            exact ⟨(), rfl⟩
  case G =>
    rw [applyParamArguments]
    cases h1 : processParamArg mc parseDouble pre.gammaArg defaults.gamma with
    | error e => exact ⟨e, rfl⟩
    | ok v1 =>
        cases h2 : processParamArg mc parseDouble pre.phiArg defaults.phi with
        | error e => exact ⟨e, rfl⟩
        | ok v2 =>
            cases h3 : processParamArg mc parseDouble pre.RsArg defaults.Rs with
            | error e => exact ⟨e, rfl⟩
            | ok v3 =>
                rw [harg, herr defaults.G]
                exact ⟨(), rfl⟩
  case b =>
    rw [applyParamArguments]
    cases h1 : processParamArg mc parseDouble pre.gammaArg defaults.gamma with
    | error e => exact ⟨e, rfl⟩
    | ok v1 =>
        cases h2 : processParamArg mc parseDouble pre.phiArg defaults.phi with
        | error e => exact ⟨e, rfl⟩
        | ok v2 =>
            cases h3 : processParamArg mc parseDouble pre.RsArg defaults.Rs with
            | error e => exact ⟨e, rfl⟩
            | ok v3 =>
                cases h4 : processParamArg mc parseDouble pre.GArg defaults.G with
                | error e => exact ⟨e, rfl⟩
                | ok v4 =>
                    rw [harg, herr defaults.b]
                    exact ⟨(), rfl⟩
  case M =>
    rw [applyParamArguments]
    cases h1 : processParamArg mc parseDouble pre.gammaArg defaults.gamma with
    | error e => exact ⟨e, rfl⟩
    | ok v1 =>
        cases h2 : processParamArg mc parseDouble pre.phiArg defaults.phi with
        | error e => exact ⟨e, rfl⟩
        | ok v2 =>
            cases h3 : processParamArg mc parseDouble pre.RsArg defaults.Rs with
            | error e => exact ⟨e, rfl⟩
            | ok v3 =>
                cases h4 : processParamArg mc parseDouble pre.GArg defaults.G with
                | error e => exact ⟨e, rfl⟩
                | ok v4 =>
                    cases h5 : processParamArg mc parseDouble pre.bArg defaults.b with
                    | error e => exact ⟨e, rfl⟩
                    | ok v5 =>
                        rw [harg, herr defaults.M]
                        exact ⟨(), rfl⟩

/-- C10: for each of the six parameter options, when the process is not in
the help branch, an argument string containing "Ux" in Monte Carlo mode
makes getCommandLineArguments return the error result, and an argument the
double parser rejects likewise makes it return the error result, so no
evaluation occurs. -/
theorem param_argument_validation (parseDouble : String → Option ℝ)
    (pre : PreParsedArguments) (r : RNG) (i : ParamIndex) (s : String)
    (hhelp : pre.common.isHelpEnabled = false)
    (harg : pre.paramArg i = some s) :
    (pre.common.isMonteCarloMode = true → containsUx s = true →
      getCommandLineArguments parseDouble pre r = GetArgsResult.error) ∧
    (parseDouble s = none →
      getCommandLineArguments parseDouble pre r = GetArgsResult.error) := by
  have main : (∀ v : ℝ, processParamArg pre.common.isMonteCarloMode parseDouble (some s) v
      = Except.error ()) →
      getCommandLineArguments parseDouble pre r = GetArgsResult.error := by
    intro herr
    obtain ⟨e, he⟩ := applyParamArguments_error pre.common.isMonteCarloMode parseDouble pre
      (setDefaultCommandLineArguments pre.common r).1 i s harg herr
    rw [getCommandLineArguments]
    by_cases hos : pre.common.isOutputSelected = true
    · simp [hhelp, hos]
    · by_cases hfm : (pre.common.isInputFromFileEnabled && pre.common.isMonteCarloMode) = true
      · simp [hhelp, hos, hfm]
      · simp [hhelp, hos, hfm, he]
  exact ⟨fun hmc hux => main (fun v => processParamArg_error_ux _ _ _ _ hmc hux),
    fun hpd => main (fun v => processParamArg_error_parse _ _ _ _ hpd)⟩

/-- Witness for C10: the gamma option carrying the string "Ux" in Monte
Carlo mode is rejected. -/
theorem param_argument_validation_witness :
    c10Pre.common.isMonteCarloMode = true ∧ containsUx c10UxString = true ∧
    getCommandLineArguments noParse c10Pre zeroRNG = GetArgsResult.error :=
  ⟨rfl, rfl,
    (param_argument_validation noParse c10Pre zeroRNG ParamIndex.gamma c10UxString
      rfl rfl).1 rfl rfl⟩

/-! ## Claim C5 -/

/-- Counterexample to C5 as stated: with benchmarking mode and verbose mode
both enabled, the run prints the per-iteration verbose input report in
addition to the benchmark line, so the standard output is not a single
benchmark line. -/
theorem benchmark_not_single_line_with_verbose :
    benchVerboseArguments.common.isBenchmarkingMode = true ∧
    ¬ ∃ v us, stdoutPrints (runMain benchVerboseArguments trivialOracle) =
        [Event.benchmarkLine v us] := by
  refine ⟨rfl, ?_⟩
  rintro ⟨v, us, h⟩
  rw [stdoutPrints, runMain_events_plain benchVerboseArguments trivialOracle rfl rfl rfl,
    runLoop_events benchVerboseArguments trivialOracle.fileDistributions] at h
  simp [benchVerboseArguments, unitArguments, quietCommon, initialLoopState, reportEvents,
    Event.isStdoutPrint, verboseEvent] at h

/-- C5 amended: when benchmarking mode is enabled and verbose mode is
disabled (and an enabled input file loads), the standard output of the run
is exactly one benchmark line carrying the result value and the elapsed
integer microseconds. -/
theorem benchmark_single_line_when_not_verbose
    (arguments : CommandLineArguments) (oracle : Oracle)
    (hb : arguments.common.isBenchmarkingMode = true)
    (hv : arguments.common.isVerbose = false)
    (hread : arguments.common.isInputFromFileEnabled = true → oracle.fileReadOk = true) :
    ∃ v us, stdoutPrints (runMain arguments oracle) = [Event.benchmarkLine v us] := by
  have hcond : (arguments.common.isInputFromFileEnabled && !oracle.fileReadOk) = false := by
    cases hf : arguments.common.isInputFromFileEnabled
    · simp
    · simp [hread hf]
  by_cases hmc : arguments.common.isMonteCarloMode = true
  · rw [stdoutPrints, runMain_events_mc arguments oracle hcond hmc,
      runLoop_events arguments oracle.fileDistributions]
    simp [hv, initialLoopState, reportEvents, hb, Event.isStdoutPrint]
  · have hmc2 : arguments.common.isMonteCarloMode = false := by
      simpa using hmc
    cases hwr : (arguments.common.isWriteToFileEnabled && !oracle.csvWriteOk) with
    | true =>
        rw [stdoutPrints, (runMain_writefail arguments oracle hcond hmc2 hwr).2,
          runLoop_events arguments oracle.fileDistributions]
        simp [hv, initialLoopState, reportEvents, hb, Event.isStdoutPrint]
    | false =>
        rw [stdoutPrints, runMain_events_plain arguments oracle hcond hmc2 hwr,
          runLoop_events arguments oracle.fileDistributions]
        simp [hv, initialLoopState, reportEvents, hb, Event.isStdoutPrint]

/-- Witness for the amended C5 at the benchmarking-only configuration. -/
theorem benchmark_single_line_when_not_verbose_witness :
    benchQuietArguments.common.isBenchmarkingMode = true ∧
    ∃ v us, stdoutPrints (runMain benchQuietArguments trivialOracle) =
      [Event.benchmarkLine v us] :=
  ⟨rfl, benchmark_single_line_when_not_verbose benchQuietArguments trivialOracle
    rfl rfl (fun _ => rfl)⟩

/-! ## Claim C8 -/

/-- C8: when the run is not in Monte Carlo mode, output-file writing is
enabled and the CSV write fails, the run exits with the failure status and
its event trace ends with the error report naming the offending output
path, preceded by the events among which the already-computed result has
been reported. -/
theorem csv_write_failure_reports_path_after_result
    (arguments : CommandLineArguments) (oracle : Oracle)
    (hmc : arguments.common.isMonteCarloMode = false)
    (hw : arguments.common.isWriteToFileEnabled = true)
    (hcsv : oracle.csvWriteOk = false)
    (hread : arguments.common.isInputFromFileEnabled = true → oracle.fileReadOk = true) :
    (runMain arguments oracle).exitCode = ExitStatus.failure ∧
    ∃ pre, (runMain arguments oracle).events =
        pre ++ [Event.csvWriteError arguments.common.outputFilePath] ∧
      ∃ e ∈ pre, e.isResultReport = true := by
  have hcond : (arguments.common.isInputFromFileEnabled && !oracle.fileReadOk) = false := by
    cases hf : arguments.common.isInputFromFileEnabled
    · simp
    · simp [hread hf]
  have hwr : (arguments.common.isWriteToFileEnabled && !oracle.csvWriteOk) = true := by
    simp [hw, hcsv]
  obtain ⟨hexit, hevents⟩ := runMain_writefail arguments oracle hcond hmc hwr
  refine ⟨hexit, _, hevents, ?_⟩
  obtain ⟨e, hmem, hrep⟩ := reportEvents_mem_report arguments oracle
    (runLoop arguments oracle.fileDistributions
      arguments.common.numberOfMonteCarloIterations (initialLoopState oracle)).sigmaCMpa
    (runLoop arguments oracle.fileDistributions
      arguments.common.numberOfMonteCarloIterations (initialLoopState oracle)).benchmarkOutput
  exact ⟨e, List.mem_append.mpr (Or.inr hmem), hrep⟩

/-- Witness for C8 at the write-enabled configuration whose CSV write
fails. -/
theorem csv_write_failure_reports_path_after_result_witness :
    (runMain c8Arguments c8Oracle).exitCode = ExitStatus.failure ∧
    ∃ pre, (runMain c8Arguments c8Oracle).events =
        pre ++ [Event.csvWriteError c8Arguments.common.outputFilePath] ∧
      ∃ e ∈ pre, e.isResultReport = true :=
  csv_write_failure_reports_path_after_result c8Arguments c8Oracle rfl rfl rfl
    (fun _ => rfl)

/-! ## Claim C3 -/

theorem c3_defaults_eq :
    setDefaultCommandLineArguments c3Common c3RNG =
      (c3Arguments, { stream := c3Stream, pos := 6 }) := by
  rw [setDefaultCommandLineArguments]
  simp only [defaultGammaDist, defaultPhiDist, defaultRsDist, defaultGDist, defaultMDist,
    sampleDist, RNG.next, c3RNG]
  norm_num [c3Stream, c3Arguments, c3Common,
    kDemoSpecificConstantGammaUniformMin, kDemoSpecificConstantGammaUniformMax,
    kDemoSpecificConstantPhiUniformMin, kDemoSpecificConstantPhiUniformMax,
    kDemoSpecificConstantRsMixtureFirstGaussianMean,
    kDemoSpecificConstantRsMixtureFirstGaussianStandardDeviation,
    kDemoSpecificConstantRsMixtureSecondGaussianMean,
    kDemoSpecificConstantRsMixtureSecondGaussianStandardDeviation,
    kDemoSpecificConstantRsMixtureFirstGaussianWeight,
    kDemoSpecificConstantGUniformMin, kDemoSpecificConstantGUniformMax,
    kDemoSpecificConstantB,
    kDemoSpecificConstantMUniformMin, kDemoSpecificConstantMUniformMax]

theorem specMonteCarloOutputs_succ (r : RNG) (n : ℕ) :
    specMonteCarloOutputs r (n + 1) =
      computeBrownHamModelOutput (specDrawSampleSet r).1.gamma
        (specDrawSampleSet r).1.phi (specDrawSampleSet r).1.Rs
        (specDrawSampleSet r).1.G (specDrawSampleSet r).1.b
        (specDrawSampleSet r).1.M ::
      specMonteCarloOutputs (specDrawSampleSet r).2 n := rfl

theorem specMonteCarloOutputs_zero (r : RNG) : specMonteCarloOutputs r 0 = [] := rfl

theorem c3_spec_draw_0 :
    specDrawSampleSet c3RNG =
      ({ gamma := 0.15, phi := 0.3, Rs := 1e-8, G := 6e10, b := 2.54e-10, M := 1.9 },
        { stream := c3Stream, pos := 6 }) := by
  rw [specDrawSampleSet]
  simp only [defaultGammaDist, defaultPhiDist, defaultRsDist, defaultGDist, defaultMDist,
    sampleDist, RNG.next, c3RNG]
  norm_num [c3Stream,
    kDemoSpecificConstantGammaUniformMin, kDemoSpecificConstantGammaUniformMax,
    kDemoSpecificConstantPhiUniformMin, kDemoSpecificConstantPhiUniformMax,
    kDemoSpecificConstantRsMixtureFirstGaussianMean,
    kDemoSpecificConstantRsMixtureFirstGaussianStandardDeviation,
    kDemoSpecificConstantRsMixtureSecondGaussianMean,
    kDemoSpecificConstantRsMixtureSecondGaussianStandardDeviation,
    kDemoSpecificConstantRsMixtureFirstGaussianWeight,
    kDemoSpecificConstantGUniformMin, kDemoSpecificConstantGUniformMax,
    kDemoSpecificConstantB,
    kDemoSpecificConstantMUniformMin, kDemoSpecificConstantMUniformMax]

theorem c3_spec_draw_1 :
    specDrawSampleSet { stream := c3Stream, pos := 6 } =
      ({ gamma := 0.15, phi := 0.3, Rs := 1e-8, G := 6e10, b := 2.54e-10, M := 3 },
        { stream := c3Stream, pos := 12 }) := by
  rw [specDrawSampleSet]
  simp only [defaultGammaDist, defaultPhiDist, defaultRsDist, defaultGDist, defaultMDist,
    sampleDist, RNG.next]
  norm_num [c3Stream,
    kDemoSpecificConstantGammaUniformMin, kDemoSpecificConstantGammaUniformMax,
    kDemoSpecificConstantPhiUniformMin, kDemoSpecificConstantPhiUniformMax,
    kDemoSpecificConstantRsMixtureFirstGaussianMean,
    kDemoSpecificConstantRsMixtureFirstGaussianStandardDeviation,
    kDemoSpecificConstantRsMixtureSecondGaussianMean,
    kDemoSpecificConstantRsMixtureSecondGaussianStandardDeviation,
    kDemoSpecificConstantRsMixtureFirstGaussianWeight,
    kDemoSpecificConstantGUniformMin, kDemoSpecificConstantGUniformMax,
    kDemoSpecificConstantB,
    kDemoSpecificConstantMUniformMin, kDemoSpecificConstantMUniformMax]

theorem c3_spec_outputs_eq :
    specMonteCarloOutputs c3RNG 2 =
      [computeBrownHamModelOutput 0.15 0.3 1e-8 6e10 2.54e-10 1.9,
        computeBrownHamModelOutput 0.15 0.3 1e-8 6e10 2.54e-10 3] := by
  show specMonteCarloOutputs c3RNG (0 + 1 + 1) = _
  rw [specMonteCarloOutputs_succ, c3_spec_draw_0]
  dsimp only
  rw [specMonteCarloOutputs_succ, c3_spec_draw_1]
  dsimp only
  rw [specMonteCarloOutputs_zero]

theorem brownHam_M_lt :
    computeBrownHamModelOutput 0.15 0.3 1e-8 6e10 2.54e-10 1.9 <
      computeBrownHamModelOutput 0.15 0.3 1e-8 6e10 2.54e-10 3 := by
  simp only [computeBrownHamModelOutput]
  have hR : (9/100:ℝ) <
      (8 * 0.15 * 0.3 * 1e-8) / (Real.pi * 6e10 * (2.54e-10:ℝ) ^ 2) := by
    have hd : (0:ℝ) < Real.pi * 6e10 * (2.54e-10:ℝ) ^ 2 := by positivity
    rw [lt_div_iff₀ hd]
    have hsq : ((2.54e-10:ℝ)) ^ 2 = 6.4516e-20 := by norm_num
    rw [hsq]
    nlinarith [Real.pi_le_four, Real.pi_pos]
  set t := Real.sqrt ((8 * 0.15 * 0.3 * 1e-8) / (Real.pi * 6e10 * (2.54e-10:ℝ) ^ 2))
    with ht
  have htgt : (3/10:ℝ) < t := by
    rw [ht]
    have h910 : Real.sqrt (9/100) = 3/10 := by
      rw [show (9/100:ℝ) = (3/10)^2 by norm_num, Real.sqrt_sq (by norm_num)]
    rw [← h910]
    exact Real.sqrt_lt_sqrt (by norm_num) hR
  nlinarith [htgt]

theorem c3_code_samples :
    (runMain c3Arguments trivialOracle).monteCarloOutputSamples =
      List.replicate 2 (computeBrownHamModelOutput 0.15 0.3 1e-8 6e10 2.54e-10 1.9) := by
  rw [runMain_samples c3Arguments trivialOracle rfl,
    runLoop_samples_mc c3Arguments trivialOracle.fileDistributions rfl]
  simp [initialLoopState, kernelOutput, loadInputs, c3Arguments, c3Common, quietCommon]

theorem c3_getArgs :
    getCommandLineArguments noParse c3Pre c3RNG =
      GetArgsResult.success c3Arguments { stream := c3Stream, pos := 6 } := by
  rw [getCommandLineArguments, show c3Pre.common = c3Common from rfl, c3_defaults_eq]
  simp [c3Pre, c3Common, quietCommon, applyParamArguments, processParamArg]

/-- C3: evaluated against the source pipeline, the Monte Carlo driver is
degenerate: getCommandLineArguments draws each parameter source exactly once
(advancing the randomness source to position six), the two-iteration run
stores the identical output twice, and the resulting Output Sample Buffer
differs from the buffer the specification describes, in which iteration two
consumes fresh draws (here turning the Taylor factor draw at stream position
eleven into the value 3 instead of the reused 1.9). -/
theorem monteCarlo_single_draw_divergence :
    getCommandLineArguments noParse c3Pre c3RNG =
      GetArgsResult.success c3Arguments { stream := c3Stream, pos := 6 } ∧
    (runMain c3Arguments trivialOracle).monteCarloOutputSamples =
      List.replicate 2 (computeBrownHamModelOutput 0.15 0.3 1e-8 6e10 2.54e-10 1.9) ∧
    (runMain c3Arguments trivialOracle).monteCarloOutputSamples ≠
      specMonteCarloOutputs c3RNG 2 := by
  refine ⟨c3_getArgs, c3_code_samples, ?_⟩
  rw [c3_code_samples, c3_spec_outputs_eq]
  intro h
  simp only [List.replicate, List.cons.injEq] at h
  exact absurd h.2.1 (ne_of_lt brownHam_M_lt)

end BrownHam
